import Mathlib

/-
  Verification development for the A11y-inspector audit engine.

  The engine (content script of the accessibility-inspector extension) is
  shallowly embedded below: DOM elements become records carrying exactly the
  data the source reads through the DOM API (tag name, attributes, computed
  style, bounding box, text content, ancestor background colors, descendant
  summaries), and each check becomes a pure Lean function over a Snapshot.

  JS numbers are modelled as Rat; NaN is modelled as `none` in `Option Rat`
  (every comparison against NaN is false, which the `nan*` helpers encode).
  The external ColorUtils module (not part of this repository's sources) is a
  parameter: a record of its two functions.
-/

namespace A11y

/- ===== Data model ===== -/

structure Viewport where
  innerWidth : Rat
  innerHeight : Rat
deriving DecidableEq

/- Result of getBoundingClientRect. -/
structure Rect where
  width : Rat
  height : Rat
  top : Rat
  bottom : Rat
  left : Rat
  right : Rat
deriving DecidableEq

/- The computed-style properties the engine reads. -/
structure Style where
  display : String
  visibility : String
  opacity : String
  color : String
  backgroundColor : String
  fontSize : String
  fontWeight : String
  pointerEvents : String
deriving DecidableEq

/-
  A DOM element as seen by the engine.  `geom = none` models an element on
  which the geometry query (getBoundingClientRect) is unavailable or throws.
  `ancestorsBg` lists the computed backgroundColor of the parent chain, in
  order from the parent upward, up to but excluding the document root
  (the while-loop in getBackgroundColor stops at document.documentElement).
  `hasAltImgDescendant` models `el.querySelector('img[alt]') !== null` and
  `hasThDescendant` models `table.querySelector('th') !== null`.
-/
structure Elem where
  tag : String
  id : String
  className : String
  outerHTML : String
  textContent : String
  innerText : String
  attrs : List (String × String)
  geom : Option Rect
  style : Style
  ancestorsBg : List String
  hasAltImgDescendant : Bool
  hasThDescendant : Bool
  disabled : Bool
deriving DecidableEq

/-
  One page snapshot: the document-order list of the body's descendant
  elements, the root element's lang attribute and markup, the location and
  clock, and the viewport.
-/
structure Snapshot where
  url : String
  timestamp : String
  htmlLang : Option String
  htmlOuterHTML : String
  elements : List Elem
  viewport : Viewport
deriving DecidableEq

/- details payload attached by the contrast check. -/
structure ContrastDetails where
  ratio : String
  requiredRatio : Rat
  fontSize : String
  fontWeight : Int
  textColor : String
  backgroundColor : String
  suggestions : String
deriving DecidableEq

/-
  One finding.  The source names the severity field `type` (a JS string
  'error' / 'warning'); `type` is a Lean keyword, so the field is called
  `severity` here but still holds the raw string.  `element` is the
  truncated outerHTML snippet or null; `selector` the locator or null.
-/
structure Finding where
  severity : String
  category : String
  message : String
  element : Option String
  selector : Option String
  details : Option ContrastDetails
deriving DecidableEq

structure Summary where
  total : Nat
  errors : Nat
  warnings : Nat
deriving DecidableEq

structure Report where
  url : String
  timestamp : String
  issues : List Finding
  summary : Summary
deriving DecidableEq

/- ===== JS number semantics ===== -/

/- Comparisons whose left operand may be NaN (modelled as none): always false. -/
def nanGeR (x : Option Rat) (y : Rat) : Bool :=
  match x with
  | some v => decide (y ≤ v)
  | none => false

def nanGtR (x : Option Rat) (y : Rat) : Bool :=
  match x with
  | some v => decide (y < v)
  | none => false

def nanLtI (x : Option Int) (y : Int) : Bool :=
  match x with
  | some v => decide (v < y)
  | none => false

/-
  Char-list implementations of the string operations the engine uses.
  (The corresponding core String functions are defined by well-founded
  recursion over byte positions and do not reduce inside the kernel, so the
  embedding works on the underlying character lists instead; String.mk and
  String.data mediate.)
-/

/- JS String.prototype.slice(0, n). -/
def strTake (s : String) (n : Nat) : String :=
  String.mk (s.data.take n)

/- JS String.prototype.trim(). -/
def strTrim (s : String) : String :=
  String.mk (((s.data.dropWhile Char.isWhitespace).reverse.dropWhile Char.isWhitespace).reverse)

/- JS String.prototype.toLowerCase(), for the ASCII tag names that occur. -/
def strToLower (s : String) : String :=
  String.mk (s.data.map Char.toLower)

/- JS String.prototype.startsWith(p). -/
def strStartsWith (s p : String) : Bool :=
  p.data.isPrefixOf s.data

/- JS String.prototype.split(' '): split on every single space. -/
def splitSpaceAux : List Char → List Char → List String
  | [], cur => [String.mk cur.reverse]
  | c :: rest, cur =>
    if c == ' ' then String.mk cur.reverse :: splitSpaceAux rest []
    else splitSpaceAux rest (c :: cur)

def jsSplitSpace (s : String) : List String :=
  splitSpaceAux s.data []

def skipWs : List Char → List Char
  | c :: rest => if c.isWhitespace then skipWs rest else c :: rest
  | [] => []

def digitsToNat (ds : List Char) : Nat :=
  ds.foldl (fun n c => n * 10 + (c.toNat - 48)) 0

def isHexDigitChar (c : Char) : Bool :=
  c.isDigit || ('a' ≤ c && c ≤ 'f') || ('A' ≤ c && c ≤ 'F')

def hexDigitVal (c : Char) : Nat :=
  if c.isDigit then c.toNat - 48
  else if 'a' ≤ c && c ≤ 'f' then c.toNat - 87
  else c.toNat - 55

def hexToNat (ds : List Char) : Nat :=
  ds.foldl (fun n c => n * 16 + hexDigitVal c) 0

def splitSign : List Char → Bool × List Char
  | '-' :: r => (true, r)
  | '+' :: r => (false, r)
  | r => (false, r)

def applySign (neg : Bool) (n : Nat) : Int :=
  if neg then -(n : Int) else (n : Int)

/-
  JS parseInt(s) with no radix argument: skip leading whitespace, optional
  sign, then either a 0x/0X hexadecimal literal or decimal digits; NaN
  (none) when no digit follows.  Trailing garbage is ignored.
-/
def jsParseInt (s : String) : Option Int :=
  let cs := skipWs s.toList
  let p := splitSign cs
  let hexTail : Option (List Char) :=
    match p.2 with
    | '0' :: c :: r => if c == 'x' || c == 'X' then some r else none
    | _ => none
  match hexTail with
  | some r =>
    let hs := r.takeWhile isHexDigitChar
    if hs.isEmpty then none else some (applySign p.1 (hexToNat hs))
  | none =>
    let ds := p.2.takeWhile Char.isDigit
    if ds.isEmpty then none else some (applySign p.1 (digitsToNat ds))

/-
  JS parseFloat(s): skip leading whitespace, optional sign, decimal digits
  with optional fraction, optional exponent.  NaN (none) when no digit is
  found.  (The special literal "Infinity" is not modelled; it never arises
  from the computed-style strings this engine parses.)
-/
def jsParseFloat (s : String) : Option Rat :=
  let cs := skipWs s.toList
  let p := splitSign cs
  let intDs := p.2.takeWhile Char.isDigit
  let rest1 := p.2.drop intDs.length
  let fracP : List Char × List Char :=
    match rest1 with
    | '.' :: r => (r.takeWhile Char.isDigit, r.drop (r.takeWhile Char.isDigit).length)
    | r => ([], r)
  if intDs.isEmpty && fracP.1.isEmpty then none
  else
    let expVal : Int :=
      match fracP.2 with
      | e :: r =>
        if e == 'e' || e == 'E' then
          let q := splitSign r
          let eds := q.2.takeWhile Char.isDigit
          if eds.isEmpty then 0 else applySign q.1 (digitsToNat eds)
        else 0
      | [] => 0
    let m : Int := applySign p.1 (digitsToNat intDs * 10 ^ fracP.1.length + digitsToNat fracP.1)
    match expVal with
    | Int.ofNat k => some (mkRat (m * ((10 ^ k : Nat) : Int)) (10 ^ fracP.1.length))
    | Int.negSucc k => some (mkRat m (10 ^ fracP.1.length * 10 ^ (k + 1)))

/- ===== Rendering of numbers into message strings ===== -/

def natPad2 (n : Nat) : String :=
  if n < 10 then "0" ++ toString n else toString n

/-
  Number.prototype.toFixed(2): round to nearest at two decimals, halves away
  from zero.  Written on the numerator/denominator directly:
  floor(|q| * 100 + 1/2) = (200 * |num| + den) / (2 * den) in Nat division.
-/
def fmtFixed2 (q : Rat) : String :=
  let neg := decide (q.num < 0)
  let a : Nat := q.num.natAbs
  let n : Nat := (200 * a + q.den) / (2 * q.den)
  (if neg then "-" else "") ++ toString (n / 100) ++ "." ++ natPad2 (n % 100)

def stripTailZeros (s : String) : String :=
  let cs := (s.toList.reverse).dropWhile (fun c => c == '0')
  let cs2 := match cs with
    | '.' :: r => r
    | r => r
  String.mk cs2.reverse

/-
  JS template-literal rendering of a number (approximate: exact for the
  integers and the short terminating decimals that occur here, e.g. 4.5).
  No claim depends on message text.
-/
def jsNumStr (q : Rat) : String :=
  if q.den == 1 then toString q.num else stripTailZeros (fmtFixed2 q)

def jsNumStrOpt (x : Option Rat) : String :=
  match x with
  | some v => jsNumStr v
  | none => "NaN"

/- ===== DOM attribute access ===== -/

def getAttr (e : Elem) (n : String) : Option String :=
  e.attrs.lookup n

def hasAttr (e : Elem) (n : String) : Bool :=
  (getAttr e n).isSome

/- ===== isElementVisible (part_001 lines 313-331) ===== -/

/-
  Returns false when the element has no geometry query (the source's
  `!element || !element.getBoundingClientRect` guard and its catch-all),
  otherwise evaluates the conjunction of the visibility conditions.
-/
def isElementVisible (w : Viewport) (e : Elem) : Bool :=
  match e.geom with
  | none => false
  | some r =>
    !(decide (r.width = 0) && decide (r.height = 0)) &&
    e.style.display != "none" &&
    e.style.visibility != "hidden" &&
    e.style.opacity != "0" &&
    decide (r.top < w.innerHeight) &&
    decide (0 < r.bottom) &&
    decide (r.left < w.innerWidth) &&
    decide (0 < r.right)

/- ===== getSelector (part_001 lines 618-635) ===== -/

/- Empty tag models a node with no tagName (the `!element.tagName` guard). -/
def getSelector (e : Elem) : String :=
  if e.tag == "" then "unknown"
  else if e.id != "" then "#" ++ e.id
  else
    let firstClass := ((jsSplitSpace e.className).headD "")
    if e.className != "" && firstClass != "" then strToLower e.tag ++ "." ++ firstClass
    else strToLower e.tag

/- ===== getAlphaFromColor (part_001 lines 409-417) ===== -/

/-
  The regex rgba\((\d+),\s*(\d+),\s*(\d+),\s*([\d.]+)\) applied at one
  position; returns the fourth capture.  Every character class involved is
  disjoint from its successor, so greedy maximal munch is exact.
-/
def matchRgbaAt (cs : List Char) : Option String :=
  match cs with
  | 'r' :: 'g' :: 'b' :: 'a' :: '(' :: r0 =>
    let d1 := r0.takeWhile Char.isDigit
    if d1.isEmpty then none else
    match r0.drop d1.length with
    | ',' :: r1 =>
      let r1b := r1.dropWhile Char.isWhitespace
      let d2 := r1b.takeWhile Char.isDigit
      if d2.isEmpty then none else
      match r1b.drop d2.length with
      | ',' :: r2 =>
        let r2b := r2.dropWhile Char.isWhitespace
        let d3 := r2b.takeWhile Char.isDigit
        if d3.isEmpty then none else
        match r2b.drop d3.length with
        | ',' :: r3 =>
          let r3b := r3.dropWhile Char.isWhitespace
          let d4 := r3b.takeWhile (fun c => c.isDigit || c == '.')
          if d4.isEmpty then none else
          match r3b.drop d4.length with
          | ')' :: _ => some (String.mk d4)
          | _ => none
        | _ => none
      | _ => none
    | _ => none
  | _ => none

/- String.prototype.match: first position at which the pattern matches. -/
def rgbaSearch : List Char → Option String
  | [] => none
  | c :: rest =>
    match matchRgbaAt (c :: rest) with
    | some a => some a
    | none => rgbaSearch rest

/-
  Alpha of a CSS color string: read from rgba(r,g,b,a) text by pattern
  match, 1 for every other form.  `none` models NaN (parseFloat of a
  capture consisting only of dots).
-/
def getAlphaFromColor (color : String) : Option Rat :=
  if strStartsWith color "rgba" then
    match rgbaSearch color.toList with
    | some cap => jsParseFloat cap
    | none => some 1
  else some 1

/- ===== getBackgroundColor (part_001 lines 381-403) ===== -/

/-
  The chain the while-loop visits: the element itself first, then its
  ancestors, stopping before the document root.
-/
def bgChain (e : Elem) : List String :=
  e.style.backgroundColor :: e.ancestorsBg

def getBackgroundColorAux : List String → Option String
  | [] => none
  | bg :: rest =>
    if bg != "" && bg != "rgba(0, 0, 0, 0)" && bg != "transparent" then
      if nanGtR (getAlphaFromColor bg) (mkRat 1 10) then some bg
      else getBackgroundColorAux rest
    else getBackgroundColorAux rest

def getBackgroundColor (e : Elem) : String :=
  (getBackgroundColorAux (bgChain e)).getD "rgb(255, 255, 255)"

/- The acceptance test of the loop body, as one predicate. -/
def acceptsBackground (bg : String) : Bool :=
  bg != "" && bg != "rgba(0, 0, 0, 0)" && bg != "transparent" &&
    nanGtR (getAlphaFromColor bg) (mkRat 1 10)

/- ===== Contrast evaluation (part_001 lines 337-375, 424-431) ===== -/

/- getRequiredContrastRatio: the 18.66 of the source is 1866/100. -/
def getRequiredContrastRatio (fontSize : Option Rat) (fontWeight : Int) : Rat :=
  if nanGeR fontSize 24 || (nanGeR fontSize (mkRat 1866 100) && decide ((700 : Int) ≤ fontWeight))
  then 3 else mkRat 9 2

structure ContrastResult where
  ratio : Rat
  fontSize : Option Rat
  fontWeight : Int
  requiredAARatio : Rat
  requiredAAARatio : Rat
  meetsAA : Bool
  meetsAAA : Bool
  textColor : String
  backgroundColor : String
  suggestions : String
deriving DecidableEq

/- The external ColorUtils module (not among this repository's sources). -/
structure ColorUtilsModel where
  calculateContrastRatio : String → String → Rat
  suggestContrastImprovements : String → String → Rat → String

def getContrastRatioForElement (cu : ColorUtilsModel) (e : Elem) : Option ContrastResult :=
  let textColor := e.style.color
  let backgroundColor := getBackgroundColor e
  if textColor == "" || backgroundColor == "" then none
  else
    let contrastRatio := cu.calculateContrastRatio textColor backgroundColor
    let fontSize := jsParseFloat e.style.fontSize
    let fontWeight : Int :=
      match jsParseInt e.style.fontWeight with
      | some n => if n == 0 then 400 else n
      | none => 400
    let requiredAARatio := getRequiredContrastRatio fontSize fontWeight
    let requiredAAARatio : Rat := if requiredAARatio = 3 then mkRat 9 2 else 7
    let suggestions := cu.suggestContrastImprovements textColor backgroundColor requiredAARatio
    some
      { ratio := contrastRatio
        fontSize := fontSize
        fontWeight := fontWeight
        requiredAARatio := requiredAARatio
        requiredAAARatio := requiredAAARatio
        meetsAA := decide (requiredAARatio ≤ contrastRatio)
        meetsAAA := decide (requiredAAARatio ≤ contrastRatio)
        textColor := textColor
        backgroundColor := backgroundColor
        suggestions := suggestions }

/- ===== getTextElements (part_001 lines 280-307) ===== -/

/- element.textContent || element.innerText || '' -/
def textOf (e : Elem) : String :=
  if e.textContent != "" then e.textContent else e.innerText

def hasTextContent (e : Elem) : Bool :=
  decide (0 < (strTrim (textOf e)).data.length)

/-
  The collection loop: skip invisible elements, push text-bearing ones,
  and break as soon as the collected count exceeds 1500.
-/
def getTextElementsAux (w : Viewport) : List Elem → List Elem → List Elem
  | [], acc => acc
  | e :: rest, acc =>
    if !isElementVisible w e then getTextElementsAux w rest acc
    else if hasTextContent e then
      if (acc ++ [e]).length > 1500 then acc ++ [e]
      else getTextElementsAux w rest (acc ++ [e])
    else
      if acc.length > 1500 then acc
      else getTextElementsAux w rest acc

def getTextElements (snap : Snapshot) : List Elem :=
  getTextElementsAux snap.viewport snap.elements []

/- ===== checkColorContrast (part_001 lines 241-275) ===== -/

def contrastIssue (cu : ColorUtilsModel) (e : Elem) : Option Finding :=
  match getContrastRatioForElement cu e with
  | some cr =>
    if !cr.meetsAA then
      some
        { severity := "error"
          category := "contrast"
          message := "Insufficient contrast: " ++ fmtFixed2 cr.ratio ++ ":1 (required "
            ++ jsNumStr cr.requiredAARatio ++ ":1)"
          element := some (strTake e.outerHTML 100)
          selector := some (getSelector e)
          details := some
            { ratio := fmtFixed2 cr.ratio
              requiredRatio := cr.requiredAARatio
              fontSize := jsNumStrOpt cr.fontSize ++ "px"
              fontWeight := cr.fontWeight
              textColor := cr.textColor
              backgroundColor := cr.backgroundColor
              suggestions := cr.suggestions } }
    else none
  | none => none

def checkColorContrast (cu : ColorUtilsModel) (snap : Snapshot) : List Finding :=
  ((getTextElements snap).take 1000).filterMap (contrastIssue cu)

/- ===== runBasicChecks (part_001 lines 168-236) ===== -/

def imgIssue (snap : Snapshot) (e : Elem) : Option Finding :=
  if e.tag == "img" && !hasAttr e "alt" && isElementVisible snap.viewport e then
    some
      { severity := "error", category := "images", message := "Image missing alt attribute"
        element := some (strTake e.outerHTML 100), selector := some (getSelector e), details := none }
  else none

/- !html.getAttribute('lang'): the attribute is absent or empty. -/
def langMissing (snap : Snapshot) : Bool :=
  match snap.htmlLang with
  | none => true
  | some s => s == ""

def langFinding (snap : Snapshot) : Finding :=
  { severity := "error", category := "language", message := "Missing lang attribute on html element"
    element := some (strTake snap.htmlOuterHTML 100), selector := some "html", details := none }

def noH1Finding : Finding :=
  { severity := "warning", category := "headings", message := "No H1 heading found"
    element := none, selector := none, details := none }

def hasLabelFor (snap : Snapshot) (i : String) : Bool :=
  snap.elements.any (fun l => l.tag == "label" && getAttr l "for" == some i)

def formIssue (snap : Snapshot) (e : Elem) : Option Finding :=
  if ((e.tag == "input" &&
        (getAttr e "type" == some "text" || getAttr e "type" == some "email"
          || getAttr e "type" == some "password"))
      || e.tag == "textarea")
      && (e.id == "" || !hasLabelFor snap e.id) then
    some
      { severity := "warning", category := "forms", message := "Input without associated label"
        element := some (strTake e.outerHTML 100), selector := some (getSelector e), details := none }
  else none

def runBasicChecks (snap : Snapshot) : List Finding :=
  (snap.elements.filterMap (imgIssue snap))
  ++ (if langMissing snap then [langFinding snap] else [])
  ++ (if (snap.elements.filter (fun e => e.tag == "h1")).length == 0 then [noH1Finding] else [])
  ++ (snap.elements.filterMap (formIssue snap))

/- ===== checkAriaAttributes (part_001 lines 436-493) ===== -/

def ariaLabelIssue (snap : Snapshot) (e : Elem) : Option Finding :=
  if hasAttr e "aria-label" && isElementVisible snap.viewport e then
    if !(e.textContent != "" && strTrim e.textContent != "") && !e.hasAltImgDescendant then
      some
        { severity := "warning", category := "aria"
          message := "Element with aria-label without visible text content"
          element := some (strTake e.outerHTML 100), selector := some (getSelector e), details := none }
    else none
  else none

def isValidAriaRole (role : String) : Bool :=
  (["button", "checkbox", "dialog", "gridcell", "link", "listbox",
    "option", "progressbar", "radio", "slider", "tab", "tabpanel",
    "textbox", "menu", "menubar", "menuitem", "navigation", "banner",
    "main", "complementary", "contentinfo", "search", "form"] : List String).contains role

def roleIssue (e : Elem) : Option Finding :=
  match getAttr e "role" with
  | some role =>
    if role != "" && !isValidAriaRole role then
      some
        { severity := "warning", category := "aria", message := "Invalid ARIA role: " ++ role
          element := some (strTake e.outerHTML 100), selector := some (getSelector e), details := none }
    else none
  | none => none

def checkAriaAttributes (snap : Snapshot) : List Finding :=
  (snap.elements.filterMap (ariaLabelIssue snap)) ++ (snap.elements.filterMap roleIssue)

/- ===== checkKeyboardNavigation (part_001 lines 498-544) ===== -/

def tabindexIssue (snap : Snapshot) (e : Elem) : Option Finding :=
  match getAttr e "tabindex" with
  | some v =>
    if isElementVisible snap.viewport e then
      if nanLtI (jsParseInt v) (-1) then
        some
          { severity := "error", category := "keyboard", message := "Invalid tabindex value"
            element := some (strTake e.outerHTML 100), selector := some (getSelector e), details := none }
      else none
    else none
  | none => none

def interactiveIssue (snap : Snapshot) (e : Elem) : Option Finding :=
  if (e.tag == "button" || e.tag == "a" || e.tag == "input" || e.tag == "select"
      || e.tag == "textarea" || hasAttr e "onclick") && isElementVisible snap.viewport e then
    if !(hasAttr e "tabindex") && !e.disabled then
      if e.style.pointerEvents != "none" && e.style.display != "none" then
        some
          { severity := "warning", category := "keyboard"
            message := "Interactive element may not be keyboard accessible"
            element := some (strTake e.outerHTML 100), selector := some (getSelector e), details := none }
      else none
    else none
  else none

def checkKeyboardNavigation (snap : Snapshot) : List Finding :=
  (snap.elements.filterMap (tabindexIssue snap)) ++ (snap.elements.filterMap (interactiveIssue snap))

/- ===== checkSemanticMarkup (part_001 lines 549-586) ===== -/

def divButtonIssue (snap : Snapshot) (e : Elem) : Option Finding :=
  if e.tag == "div" && (hasAttr e "onclick" || getAttr e "role" == some "button")
      && isElementVisible snap.viewport e then
    some
      { severity := "warning", category := "semantics"
        message := "Using div instead of button for interactive element"
        element := some (strTake e.outerHTML 100), selector := some (getSelector e), details := none }
  else none

/- !table.getAttribute('summary'): absent or empty. -/
def summaryAttrFalsy (e : Elem) : Bool :=
  match getAttr e "summary" with
  | none => true
  | some s => s == ""

def tableIssue (e : Elem) : Option Finding :=
  if e.tag == "table" && !hasAttr e "role" then
    if !e.hasThDescendant && summaryAttrFalsy e then
      some
        { severity := "warning", category := "semantics"
          message := "Possible table usage for layout"
          element := some (strTake e.outerHTML 100), selector := some (getSelector e), details := none }
    else none
  else none

def checkSemanticMarkup (snap : Snapshot) : List Finding :=
  (snap.elements.filterMap (divButtonIssue snap)) ++ (snap.elements.filterMap tableIssue)

/- ===== checkLanguage (part_001 lines 591-612) ===== -/

def checkLanguage (snap : Snapshot) : List Finding :=
  if langMissing snap then [langFinding snap] else []

/- ===== runA11yChecks (part_001 lines 107-163) ===== -/

def systemFinding (msg : String) : Finding :=
  { severity := "error", category := "system", message := "Check execution error: " ++ msg
    element := none, selector := none, details := none }

/-
  The six contributions of the try-block, in execution order.  `ruleStub`
  true models the repo-as-given situation where the A11yRules module failed
  to load and initializeDependencies installed the empty A11yRuleUtils stub
  (its runAllChecks returns [] and runBasicChecks is then skipped);
  `ruleStub` false models A11yRuleUtils being absent, so the fallback
  runBasicChecks runs.
-/
def checksJoined (cu : ColorUtilsModel) (snap : Snapshot) (ruleStub : Bool) :
    List (List Finding) :=
  [ (if ruleStub then [] else runBasicChecks snap)
  , checkColorContrast cu snap
  , checkAriaAttributes snap
  , checkKeyboardNavigation snap
  , checkSemanticMarkup snap
  , checkLanguage snap ]

def mkSummary (issues : List Finding) : Summary :=
  { total := issues.length
    errors := (issues.filter (fun i => i.severity == "error")).length
    warnings := (issues.filter (fun i => i.severity == "warning")).length }

/-
  The engine entry point.  `fault = some (k, msg)` models a runtime
  exception with message `msg` escaping into the try-block after the first
  `k` check contributions were pushed: the catch keeps the issues collected
  so far and appends the system finding, exactly as the source's
  catch-block does.  The function is total: the embedded engine never
  throws.
-/
/- The issue list the try/catch yields under the given fault. -/
def collectedIssues (cu : ColorUtilsModel) (snap : Snapshot) (ruleStub : Bool) :
    Option (Nat × String) → List Finding
  | none => (checksJoined cu snap ruleStub).flatten
  | some (k, msg) => ((checksJoined cu snap ruleStub).take k).flatten ++ [systemFinding msg]

def runA11yChecks (cu : ColorUtilsModel) (snap : Snapshot) (ruleStub : Bool)
    (fault : Option (Nat × String)) : Report :=
  { url := snap.url
    timestamp := snap.timestamp
    issues := collectedIssues cu snap ruleStub fault
    summary := mkSummary (collectedIssues cu snap ruleStub fault) }

/-
  ===== The accessibility-checker variant =====
  (src/accessibility-checker/popup/content-script.js)

  A second, simpler engine shipped in the same repository.  None of its
  loops filter by visibility, its contrast check pushes nothing, and its
  headings check counts all of h1..h6 (where the inspector engine above
  counts only h1).
-/

namespace Checker

def getSelector (e : Elem) : String :=
  if e.id != "" then "#" ++ e.id
  else if e.className != "" then "." ++ ((jsSplitSpace e.className).headD "")
  else strToLower e.tag

def imgIssue (e : Elem) : Option Finding :=
  if e.tag == "img" && !hasAttr e "alt" then
    some
      { severity := "error", category := "images", message := "Изображение без атрибута alt"
        element := some (strTake e.outerHTML 100), selector := some (getSelector e), details := none }
  else none

def isHeadingTag (t : String) : Bool :=
  t == "h1" || t == "h2" || t == "h3" || t == "h4" || t == "h5" || t == "h6"

def headingsFinding : Finding :=
  { severity := "warning", category := "headings", message := "На странице отсутствуют заголовки"
    element := none, selector := none, details := none }

/- The source's loop inspects computed styles but pushes no issue. -/
def checkColorContrast (_snap : Snapshot) : List Finding := []

def ariaIssue (e : Elem) : Option Finding :=
  if hasAttr e "aria-label" && strTrim e.textContent == "" && !e.hasAltImgDescendant then
    some
      { severity := "warning", category := "aria"
        message := "Элемент с aria-label без видимого текстового содержимого"
        element := some (strTake e.outerHTML 100), selector := some (getSelector e), details := none }
  else none

def keyboardIssue (e : Elem) : Option Finding :=
  match getAttr e "tabindex" with
  | some v =>
    if nanLtI (jsParseInt v) (-1) then
      some
        { severity := "error", category := "keyboard", message := "Некорректное значение tabindex"
          element := some (strTake e.outerHTML 100), selector := some (getSelector e), details := none }
    else none
  | none => none

def semanticIssue (e : Elem) : Option Finding :=
  if e.tag == "div" && (hasAttr e "onclick" || getAttr e "role" == some "button") then
    some
      { severity := "warning", category := "semantics"
        message := "Использование div вместо button для интерактивного элемента"
        element := some (strTake e.outerHTML 100), selector := some (getSelector e), details := none }
  else none

def runA11yChecks (snap : Snapshot) : Report :=
  let issues :=
    (snap.elements.filterMap imgIssue)
    ++ (if (snap.elements.filter (fun e => isHeadingTag e.tag)).length == 0
        then [headingsFinding] else [])
    ++ checkColorContrast snap
    ++ (snap.elements.filterMap ariaIssue)
    ++ (snap.elements.filterMap keyboardIssue)
    ++ (snap.elements.filterMap semanticIssue)
  { url := snap.url
    timestamp := snap.timestamp
    issues := issues
    summary := mkSummary issues }

end Checker

/- ===== Shared helper lemmas ===== -/

/- The categories that can appear in a report of the inspector engine. -/
def reportCategories : List String :=
  ["images", "headings", "contrast", "aria", "keyboard", "semantics", "language", "system", "forms"]

/- Well-formedness of one finding, as the spec's invariants word it. -/
def GoodFinding (f : Finding) : Prop :=
  (f.severity = "error" ∨ f.severity = "warning")
  ∧ f.element.isSome = f.selector.isSome
  ∧ f.category ∈ reportCategories

lemma imgIssue_spec {snap : Snapshot} {e : Elem} {f : Finding}
    (h : imgIssue snap e = some f) : GoodFinding f ∧ f.category = "images" := by
  unfold imgIssue at h
  split at h
  · injection h with h; subst h
    exact ⟨⟨Or.inl rfl, by simp, by simp [reportCategories]⟩, rfl⟩
  · exact absurd h (by simp)

lemma formIssue_spec {snap : Snapshot} {e : Elem} {f : Finding}
    (h : formIssue snap e = some f) : GoodFinding f ∧ f.category = "forms" := by
  unfold formIssue at h
  split at h
  · injection h with h; subst h
    exact ⟨⟨Or.inr rfl, by simp, by simp [reportCategories]⟩, rfl⟩
  · exact absurd h (by simp)

lemma langFinding_spec (snap : Snapshot) :
    GoodFinding (langFinding snap) ∧ (langFinding snap).category = "language" := by
  exact ⟨⟨Or.inl rfl, by simp [langFinding], by simp [reportCategories, langFinding]⟩, rfl⟩

lemma noH1Finding_spec : GoodFinding noH1Finding ∧ noH1Finding.category = "headings" := by
  exact ⟨⟨Or.inr rfl, by simp [noH1Finding], by simp [reportCategories, noH1Finding]⟩, rfl⟩

lemma systemFinding_spec (msg : String) :
    GoodFinding (systemFinding msg) ∧ (systemFinding msg).category = "system" := by
  exact ⟨⟨Or.inl rfl, by simp [systemFinding], by simp [reportCategories, systemFinding]⟩, rfl⟩

lemma contrastIssue_spec {cu : ColorUtilsModel} {e : Elem} {f : Finding}
    (h : contrastIssue cu e = some f) : GoodFinding f ∧ f.category = "contrast" := by
  unfold contrastIssue at h
  split at h
  case h_1 cr hcr =>
    split at h
    · injection h with h; subst h
      exact ⟨⟨Or.inl rfl, by simp, by simp [reportCategories]⟩, rfl⟩
    · exact absurd h (by simp)
  case h_2 => exact absurd h (by simp)

lemma ariaLabelIssue_spec {snap : Snapshot} {e : Elem} {f : Finding}
    (h : ariaLabelIssue snap e = some f) : GoodFinding f ∧ f.category = "aria" := by
  unfold ariaLabelIssue at h
  split at h
  · split at h
    · injection h with h; subst h
      exact ⟨⟨Or.inr rfl, by simp, by simp [reportCategories]⟩, rfl⟩
    · exact absurd h (by simp)
  · exact absurd h (by simp)

lemma roleIssue_spec {e : Elem} {f : Finding}
    (h : roleIssue e = some f) : GoodFinding f ∧ f.category = "aria" := by
  unfold roleIssue at h
  split at h
  case h_1 role hrole =>
    split at h
    · injection h with h; subst h
      exact ⟨⟨Or.inr rfl, by simp, by simp [reportCategories]⟩, rfl⟩
    · exact absurd h (by simp)
  case h_2 => exact absurd h (by simp)

lemma tabindexIssue_spec {snap : Snapshot} {e : Elem} {f : Finding}
    (h : tabindexIssue snap e = some f) : GoodFinding f ∧ f.category = "keyboard" := by
  unfold tabindexIssue at h
  split at h
  case h_1 v hv =>
    split at h
    · split at h
      · injection h with h; subst h
        exact ⟨⟨Or.inl rfl, by simp, by simp [reportCategories]⟩, rfl⟩
      · exact absurd h (by simp)
    · exact absurd h (by simp)
  case h_2 => exact absurd h (by simp)

lemma interactiveIssue_spec {snap : Snapshot} {e : Elem} {f : Finding}
    (h : interactiveIssue snap e = some f) : GoodFinding f ∧ f.category = "keyboard" := by
  unfold interactiveIssue at h
  split at h
  · split at h
    · split at h
      · injection h with h; subst h
        exact ⟨⟨Or.inr rfl, by simp, by simp [reportCategories]⟩, rfl⟩
      · exact absurd h (by simp)
    · exact absurd h (by simp)
  · exact absurd h (by simp)

lemma divButtonIssue_spec {snap : Snapshot} {e : Elem} {f : Finding}
    (h : divButtonIssue snap e = some f) : GoodFinding f ∧ f.category = "semantics" := by
  unfold divButtonIssue at h
  split at h
  · injection h with h; subst h
    exact ⟨⟨Or.inr rfl, by simp, by simp [reportCategories]⟩, rfl⟩
  · exact absurd h (by simp)

lemma tableIssue_spec {e : Elem} {f : Finding}
    (h : tableIssue e = some f) : GoodFinding f ∧ f.category = "semantics" := by
  unfold tableIssue at h
  split at h
  · split at h
    · injection h with h; subst h
      exact ⟨⟨Or.inr rfl, by simp, by simp [reportCategories]⟩, rfl⟩
    · exact absurd h (by simp)
  · exact absurd h (by simp)

lemma runBasicChecks_spec {snap : Snapshot} {f : Finding} (h : f ∈ runBasicChecks snap) :
    GoodFinding f ∧
      (f.category = "images" ∨ f.category = "language" ∨ f.category = "headings"
        ∨ f.category = "forms") := by
  unfold runBasicChecks at h
  rcases List.mem_append.mp h with h | h
  · rcases List.mem_append.mp h with h | h
    · rcases List.mem_append.mp h with h | h
      · obtain ⟨e, -, he⟩ := List.mem_filterMap.mp h
        exact ⟨(imgIssue_spec he).1, Or.inl (imgIssue_spec he).2⟩
      · split at h
        · rcases List.mem_singleton.mp h with rfl
          exact ⟨(langFinding_spec snap).1, Or.inr (Or.inl (langFinding_spec snap).2)⟩
        · exact absurd h (by simp)
    · split at h
      · rcases List.mem_singleton.mp h with rfl
        exact ⟨noH1Finding_spec.1, Or.inr (Or.inr (Or.inl noH1Finding_spec.2))⟩
      · exact absurd h (by simp)
  · obtain ⟨e, -, he⟩ := List.mem_filterMap.mp h
    exact ⟨(formIssue_spec he).1, Or.inr (Or.inr (Or.inr (formIssue_spec he).2))⟩

lemma checkColorContrast_spec {cu : ColorUtilsModel} {snap : Snapshot} {f : Finding}
    (h : f ∈ checkColorContrast cu snap) : GoodFinding f ∧ f.category = "contrast" := by
  obtain ⟨e, -, he⟩ := List.mem_filterMap.mp h
  exact contrastIssue_spec he

lemma checkAriaAttributes_spec {snap : Snapshot} {f : Finding}
    (h : f ∈ checkAriaAttributes snap) : GoodFinding f ∧ f.category = "aria" := by
  rcases List.mem_append.mp h with h | h
  · obtain ⟨e, -, he⟩ := List.mem_filterMap.mp h
    exact ariaLabelIssue_spec he
  · obtain ⟨e, -, he⟩ := List.mem_filterMap.mp h
    exact roleIssue_spec he

lemma checkKeyboardNavigation_spec {snap : Snapshot} {f : Finding}
    (h : f ∈ checkKeyboardNavigation snap) : GoodFinding f ∧ f.category = "keyboard" := by
  rcases List.mem_append.mp h with h | h
  · obtain ⟨e, -, he⟩ := List.mem_filterMap.mp h
    exact tabindexIssue_spec he
  · obtain ⟨e, -, he⟩ := List.mem_filterMap.mp h
    exact interactiveIssue_spec he

lemma checkSemanticMarkup_spec {snap : Snapshot} {f : Finding}
    (h : f ∈ checkSemanticMarkup snap) : GoodFinding f ∧ f.category = "semantics" := by
  rcases List.mem_append.mp h with h | h
  · obtain ⟨e, -, he⟩ := List.mem_filterMap.mp h
    exact divButtonIssue_spec he
  · obtain ⟨e, -, he⟩ := List.mem_filterMap.mp h
    exact tableIssue_spec he

lemma checkLanguage_spec {snap : Snapshot} {f : Finding}
    (h : f ∈ checkLanguage snap) : GoodFinding f ∧ f.category = "language" := by
  unfold checkLanguage at h
  split at h
  · rcases List.mem_singleton.mp h with rfl
    exact langFinding_spec snap
  · exact absurd h (by simp)

lemma checksJoined_spec {cu : ColorUtilsModel} {snap : Snapshot} {stub : Bool}
    {chk : List Finding} (hc : chk ∈ checksJoined cu snap stub) {f : Finding}
    (hf : f ∈ chk) : GoodFinding f := by
  simp only [checksJoined, List.mem_cons, List.not_mem_nil, or_false] at hc
  rcases hc with rfl | rfl | rfl | rfl | rfl | rfl
  · split at hf
    · exact absurd hf (by simp)
    · exact (runBasicChecks_spec hf).1
  · exact (checkColorContrast_spec hf).1
  · exact (checkAriaAttributes_spec hf).1
  · exact (checkKeyboardNavigation_spec hf).1
  · exact (checkSemanticMarkup_spec hf).1
  · exact (checkLanguage_spec hf).1

/- Every finding in any report of the engine is well formed. -/
lemma issues_good {cu : ColorUtilsModel} {snap : Snapshot} {stub : Bool}
    {fault : Option (Nat × String)} {f : Finding}
    (h : f ∈ (runA11yChecks cu snap stub fault).issues) : GoodFinding f := by
  match fault with
  | none =>
    obtain ⟨chk, hc, hf⟩ := List.mem_flatten.mp h
    exact checksJoined_spec hc hf
  | some (k, msg) =>
    rcases List.mem_append.mp h with h | h
    · obtain ⟨chk, hc, hf⟩ := List.mem_flatten.mp h
      exact checksJoined_spec (List.mem_of_mem_take hc) hf
    · rcases List.mem_singleton.mp h with rfl
      exact (systemFinding_spec msg).1

/- The element test of the text-collection loop, as one predicate. -/
def qualifiesText (w : Viewport) (e : Elem) : Bool :=
  isElementVisible w e && hasTextContent e

lemma getTextElementsAux_eq (w : Viewport) (l : List Elem) :
    ∀ acc : List Elem, acc.length ≤ 1500 →
      getTextElementsAux w l acc = (acc ++ l.filter (qualifiesText w)).take 1501 := by
  induction l with
  | nil =>
    intro acc h
    simp only [getTextElementsAux, List.filter_nil, List.append_nil]
    exact (List.take_of_length_le (by omega)).symm
  | cons e rest ih =>
    intro acc h
    by_cases hv : isElementVisible w e
    · by_cases ht : hasTextContent e
      · have hq : qualifiesText w e = true := by simp [qualifiesText, hv, ht]
        by_cases hlen : (acc ++ [e]).length > 1500
        · have h1501 : (acc ++ [e]).length = 1501 := by
            simp only [List.length_append, List.length_singleton] at hlen ⊢
            omega
          rw [List.filter_cons_of_pos hq]
          simp only [getTextElementsAux, hv, ht, hlen, Bool.not_true, Bool.false_eq_true,
            if_false, if_true, ite_true, ite_false]
          rw [show acc ++ e :: rest.filter (qualifiesText w)
                = (acc ++ [e]) ++ rest.filter (qualifiesText w) by simp]
          exact (List.take_left' h1501).symm
        · have hle : (acc ++ [e]).length ≤ 1500 := by omega
          rw [List.filter_cons_of_pos hq]
          simp only [getTextElementsAux, hv, ht, hlen, Bool.not_true, Bool.false_eq_true,
            if_false, if_true, ite_true, ite_false]
          rw [ih (acc ++ [e]) hle]
          congr 1
          simp
      · have hq : qualifiesText w e = false := by simp [qualifiesText, hv, ht]
        have hlen : ¬ acc.length > 1500 := by omega
        rw [List.filter_cons_of_neg (by simp [hq])]
        simp only [getTextElementsAux, hv, ht, hlen, Bool.not_true, Bool.false_eq_true,
          if_false, if_true, ite_true, ite_false]
        exact ih acc h
    · have hq : qualifiesText w e = false := by simp [qualifiesText, hv]
      rw [List.filter_cons_of_neg (by simp [hq])]
      simp only [getTextElementsAux, hv, Bool.not_false, if_true]
      exact ih acc h

/-
  The collection loop gathers, in document order, exactly the visible
  text-bearing elements, cut off after the 1501st one (the break fires only
  once the count exceeds 1500).
-/
lemma getTextElements_eq (snap : Snapshot) :
    getTextElements snap = (snap.elements.filter (qualifiesText snap.viewport)).take 1501 := by
  have h := getTextElementsAux_eq snap.viewport snap.elements [] (by simp)
  simpa [getTextElements] using h

/- The background-resolution loop returns the first acceptable layer. -/
lemma getBackgroundColorAux_eq_find (l : List String) :
    getBackgroundColorAux l = l.find? acceptsBackground := by
  induction l with
  | nil => rfl
  | cons bg rest ih =>
    have hacc : acceptsBackground bg
        = ((bg != "" && bg != "rgba(0, 0, 0, 0)" && bg != "transparent")
            && nanGtR (getAlphaFromColor bg) (mkRat 1 10)) := rfl
    by_cases h1 : (bg != "" && bg != "rgba(0, 0, 0, 0)" && bg != "transparent") = true
    · by_cases h2 : nanGtR (getAlphaFromColor bg) (mkRat 1 10) = true
      · have ha : acceptsBackground bg = true := by rw [hacc, h1, h2]; rfl
        rw [List.find?_cons_of_pos rest ha]
        simp only [getBackgroundColorAux]
        rw [h1, h2]
        simp
      · simp only [Bool.not_eq_true] at h2
        have ha : acceptsBackground bg = false := by rw [hacc, h1, h2]; rfl
        rw [List.find?_cons_of_neg rest (by simp [ha]), ← ih]
        simp only [getBackgroundColorAux]
        rw [h1, h2]
        simp
    · simp only [Bool.not_eq_true] at h1
      have ha : acceptsBackground bg = false := by rw [hacc, h1]; rfl
      rw [List.find?_cons_of_neg rest (by simp [ha]), ← ih]
      simp only [getBackgroundColorAux]
      rw [h1]
      simp

lemma filter_replicate_pos {α : Type} (p : α → Bool) (a : α) (h : p a = true) (n : Nat) :
    (List.replicate n a).filter p = List.replicate n a := by
  induction n with
  | zero => rfl
  | succ n ih => simp [List.replicate_succ, List.filter_cons, h, ih]

/- The error/warning partition covers a list of well-formed findings. -/
lemma count_partition (l : List Finding)
    (h : ∀ f ∈ l, f.severity = "error" ∨ f.severity = "warning") :
    (l.filter (fun f => f.severity == "error")).length
      + (l.filter (fun f => f.severity == "warning")).length = l.length := by
  induction l with
  | nil => simp
  | cons a t ih =>
    have ha := h a (List.mem_cons_self a t)
    have ht := ih (fun f hf => h f (List.mem_cons_of_mem a hf))
    rcases ha with ha | ha <;>
      simp [List.filter_cons, ha, ht] <;> omega

/- ===== Concrete fixtures ===== -/

def defaultStyle : Style :=
  { display := "block", visibility := "visible", opacity := "1", color := "rgb(0, 0, 0)"
    backgroundColor := "rgb(255, 255, 255)", fontSize := "16px", fontWeight := "400"
    pointerEvents := "auto" }

def visibleRect : Rect :=
  { width := 10, height := 10, top := 0, bottom := 10, left := 0, right := 10 }

def stdViewport : Viewport := { innerWidth := 800, innerHeight := 600 }

def baseElem : Elem :=
  { tag := "span", id := "", className := "", outerHTML := "<span>x</span>"
    textContent := "x", innerText := "x", attrs := [], geom := some visibleRect
    style := defaultStyle, ancestorsBg := [], hasAltImgDescendant := false
    hasThDescendant := false, disabled := false }

def cuZero : ColorUtilsModel :=
  { calculateContrastRatio := fun _ _ => 0, suggestContrastImprovements := fun _ _ _ => "" }

def snapNoLang : Snapshot :=
  { url := "http://example.test/", timestamp := "2024-01-01T00:00:00.000Z"
    htmlLang := none, htmlOuterHTML := "<html>", elements := [], viewport := stdViewport }

/- ===== Claim C1 ===== -/

/-- Claim C1: for every Report the engine produces, summary.total equals the
length of the findings sequence, summary.errors counts the severity-error
findings, summary.warnings counts the severity-warning findings, and
errors + warnings = total. -/
theorem claim_C1_summary_invariant (cu : ColorUtilsModel) (snap : Snapshot) (stub : Bool)
    (fault : Option (Nat × String)) :
    (runA11yChecks cu snap stub fault).summary.total
        = (runA11yChecks cu snap stub fault).issues.length
  ∧ (runA11yChecks cu snap stub fault).summary.errors
        = ((runA11yChecks cu snap stub fault).issues.filter
            (fun f => f.severity == "error")).length
  ∧ (runA11yChecks cu snap stub fault).summary.warnings
        = ((runA11yChecks cu snap stub fault).issues.filter
            (fun f => f.severity == "warning")).length
  ∧ (runA11yChecks cu snap stub fault).summary.errors
        + (runA11yChecks cu snap stub fault).summary.warnings
        = (runA11yChecks cu snap stub fault).summary.total := by
  refine ⟨rfl, rfl, rfl, ?_⟩
  exact count_partition _
    (fun f hf => (@issues_good cu snap stub fault f hf).1)

/- ===== Claim C6 ===== -/

/-- Claim C6: the engine entry point is total (never throws); an exception
raised while the checks run is captured as a severity-error system-category
finding appended after the findings already collected, and the caller always
receives a report carrying url, timestamp, findings and a consistent
summary. -/
theorem claim_C6_engine_boundary (cu : ColorUtilsModel) (snap : Snapshot) (stub : Bool)
    (fault : Option (Nat × String)) (k : Nat) (msg : String) :
    (runA11yChecks cu snap stub fault).url = snap.url
  ∧ (runA11yChecks cu snap stub fault).timestamp = snap.timestamp
  ∧ (runA11yChecks cu snap stub fault).summary.total
      = (runA11yChecks cu snap stub fault).issues.length
  ∧ (runA11yChecks cu snap stub (some (k, msg))).issues
      = ((checksJoined cu snap stub).take k).flatten ++ [systemFinding msg]
  ∧ (systemFinding msg).severity = "error"
  ∧ (systemFinding msg).category = "system"
  ∧ systemFinding msg ∈ (runA11yChecks cu snap stub (some (k, msg))).issues := by
  refine ⟨rfl, rfl, rfl, rfl, rfl, rfl, ?_⟩
  exact List.mem_append.mpr (Or.inr (List.mem_singleton.mpr rfl))

/- ===== Claim C8 ===== -/

/-- Claim C8: every finding in any report of the engine has severity error or
warning, and carries an element snippet exactly when it carries a
selector. -/
theorem claim_C8_finding_shape (cu : ColorUtilsModel) (snap : Snapshot) (stub : Bool)
    (fault : Option (Nat × String)) (f : Finding)
    (h : f ∈ (runA11yChecks cu snap stub fault).issues) :
    (f.severity = "error" ∨ f.severity = "warning")
  ∧ f.element.isSome = f.selector.isSome :=
  ⟨(issues_good h).1, (issues_good h).2.1⟩

/-- Witness for C8: the language finding of a concrete lang-less page. -/
theorem claim_C8_witness :
    ((langFinding snapNoLang).severity = "error"
        ∨ (langFinding snapNoLang).severity = "warning")
  ∧ (langFinding snapNoLang).element.isSome = (langFinding snapNoLang).selector.isSome :=
  claim_C8_finding_shape cuZero snapNoLang false none (langFinding snapNoLang) (by decide)

/- ===== Claim C9 ===== -/

/- The eight category values the spec's enum lists. -/
def specCategories : List String :=
  ["images", "headings", "contrast", "aria", "keyboard", "semantics", "language", "system"]

def inputNoLabel : Elem :=
  { baseElem with
    tag := "input", attrs := [("type", "text")]
    outerHTML := "<input type=\"text\">", textContent := "", innerText := "" }

def snapInput : Snapshot :=
  { url := "http://example.test/", timestamp := "2024-01-01T00:00:00.000Z"
    htmlLang := some "en", htmlOuterHTML := "<html lang=\"en\">"
    elements := [inputNoLabel], viewport := stdViewport }

/-- Counterexample to C9 as stated: an unlabeled text input makes
runBasicChecks emit a finding whose category is "forms", which is outside
the spec's eight-value enum. -/
theorem claim_C9_counterexample :
    ((runA11yChecks cuZero snapInput false none).issues.all
        (fun f => specCategories.contains f.category)) = false := by decide

/-- Claim C9 (amended): every finding's category is one of the eight spec
categories or "forms" (the form-label rule of runBasicChecks, absent from
the spec's enum). -/
theorem claim_C9_categories (cu : ColorUtilsModel) (snap : Snapshot) (stub : Bool)
    (fault : Option (Nat × String)) (f : Finding)
    (h : f ∈ (runA11yChecks cu snap stub fault).issues) :
    f.category ∈ reportCategories :=
  (issues_good h).2.2

/-- Witness for C9 (amended), at a concrete lang-less page. -/
theorem claim_C9_witness : (langFinding snapNoLang).category ∈ reportCategories :=
  claim_C9_categories cuZero snapNoLang false none (langFinding snapNoLang) (by decide)

/- ===== Claim C3 ===== -/

/-
  The background resolver exactly as the claim words it: the first
  acceptable layer among the ANCESTORS only, white if none.  (Second
  definition, for comparison with the source's getBackgroundColor.)
-/
def resolveBackgroundSpec (e : Elem) : String :=
  (e.ancestorsBg.find? acceptsBackground).getD "rgb(255, 255, 255)"

def elemOwnBg : Elem :=
  { baseElem with
    style := { defaultStyle with backgroundColor := "rgb(10, 20, 30)" }
    ancestorsBg := ["transparent"] }

/-- Counterexample to C3 as stated: for an element whose own computed
background is opaque while no ancestor supplies one, the claim demands
white, but getBackgroundColor starts the walk at the element itself and
returns the element's own background. -/
theorem claim_C3_counterexample :
    getBackgroundColor elemOwnBg = "rgb(10, 20, 30)"
  ∧ resolveBackgroundSpec elemOwnBg = "rgb(255, 255, 255)"
  ∧ getBackgroundColor elemOwnBg ≠ resolveBackgroundSpec elemOwnBg := by decide

/-- Claim C3 (amended): getBackgroundColor walks the chain starting at the
element ITSELF and then its ancestors (root excluded), returns the first
layer whose color is non-empty, differs from both fully-transparent
sentinels and has parsed alpha above 0.1, white when no layer qualifies;
alpha is read by pattern match only from rgba(r,g,b,a) text, every other
color form counting as alpha 1. -/
theorem claim_C3_background_walk (e : Elem) :
    getBackgroundColor e
      = ((e.style.backgroundColor :: e.ancestorsBg).find? acceptsBackground).getD
          "rgb(255, 255, 255)"
  ∧ (∀ c : String, strStartsWith c "rgba" = false → getAlphaFromColor c = some 1) := by
  constructor
  · rw [getBackgroundColor, bgChain, getBackgroundColorAux_eq_find]
  · intro c hc
    unfold getAlphaFromColor
    rw [hc]
    simp

/-- Witness for C3 (amended): a non-rgba color parses as alpha 1, and the
fixture element resolves to white. -/
theorem claim_C3_witness :
    getAlphaFromColor "rgb(0, 0, 0)" = some 1
  ∧ getBackgroundColor baseElem = "rgb(255, 255, 255)" := by
  refine ⟨(claim_C3_background_walk baseElem).2 "rgb(0, 0, 0)" (by decide), by decide⟩

/- ===== Claim C4 ===== -/

def snap2000 : Snapshot :=
  { url := "http://example.test/", timestamp := "2024-01-01T00:00:00.000Z"
    htmlLang := some "en", htmlOuterHTML := "<html lang=\"en\">"
    elements := List.replicate 2000 baseElem, viewport := stdViewport }

/-- Counterexample to C4 as stated: on a page with 2000 visible text-bearing
elements the collector returns 1501 elements, because the break fires only
once the collected count exceeds 1500 — so "never more than 1500" is
false. -/
theorem claim_C4_counterexample : 1500 < (getTextElements snap2000).length := by
  rw [getTextElements_eq]
  show 1500 < (((List.replicate 2000 baseElem).filter (qualifiesText stdViewport)).take 1501).length
  rw [filter_replicate_pos _ _ (by decide), List.take_replicate, List.length_replicate]
  decide

/-- Claim C4 (amended): the collector returns, in document order, exactly
the visible text-bearing elements cut off after the 1501st (at most 1501,
the break firing once the count exceeds 1500), and the contrast check
evaluates at most the first 1000 of them. -/
theorem claim_C4_text_collection (cu : ColorUtilsModel) (snap : Snapshot) :
    getTextElements snap = (snap.elements.filter (qualifiesText snap.viewport)).take 1501
  ∧ (getTextElements snap).length ≤ 1501
  ∧ checkColorContrast cu snap
      = ((snap.elements.filter (qualifiesText snap.viewport)).take 1000).filterMap
          (contrastIssue cu)
  ∧ (checkColorContrast cu snap).length ≤ 1000 := by
  refine ⟨getTextElements_eq snap, ?_, ?_, ?_⟩
  · rw [getTextElements_eq]
    exact List.length_take_le 1501 _
  · unfold checkColorContrast
    rw [getTextElements_eq, List.take_take]
    norm_num
  · calc (checkColorContrast cu snap).length
        ≤ ((getTextElements snap).take 1000).length := List.length_filterMap_le _ _
      _ ≤ 1000 := List.length_take_le 1000 _

/- ===== Claim C5 ===== -/

/-- Claim C5: isElementVisible is true exactly when the element answers a
geometry query with a box that is not zero-by-zero, its computed display,
visibility and opacity are not none/hidden/'0', and the box intersects the
viewport; with no geometry (the failure mode) it is false — fail closed,
and the embedding is a total function (never throws). -/
theorem claim_C5_visibility (w : Viewport) (e : Elem) :
    (isElementVisible w e = true ↔
      ∃ r : Rect, e.geom = some r
        ∧ ¬(r.width = 0 ∧ r.height = 0)
        ∧ e.style.display ≠ "none"
        ∧ e.style.visibility ≠ "hidden"
        ∧ e.style.opacity ≠ "0"
        ∧ r.top < w.innerHeight ∧ 0 < r.bottom ∧ r.left < w.innerWidth ∧ 0 < r.right)
  ∧ (e.geom = none → isElementVisible w e = false) := by
  constructor
  · cases hg : e.geom with
    | none => simp [isElementVisible, hg]
    | some r =>
      simp only [isElementVisible, hg, Bool.and_eq_true, Bool.not_eq_true',
        Bool.and_eq_false_iff, decide_eq_true_eq, decide_eq_false_iff_not, bne_iff_ne,
        ne_eq, Option.some.injEq]
      constructor
      · rintro ⟨⟨⟨⟨⟨⟨⟨h1, h2⟩, h3⟩, h4⟩, h5⟩, h6⟩, h7⟩, h8⟩
        exact ⟨r, rfl, by tauto, h2, h3, h4, h5, h6, h7, h8⟩
      · rintro ⟨r2, hr2, h1, h2, h3, h4, h5, h6, h7, h8⟩
        cases hr2
        exact ⟨⟨⟨⟨⟨⟨⟨by tauto, h2⟩, h3⟩, h4⟩, h5⟩, h6⟩, h7⟩, h8⟩
  · intro hn
    simp [isElementVisible, hn]

def noGeomElem : Elem := { baseElem with geom := none }

/-- Witness for C5: the fixture element is visible, and an element with no
geometry query is not. -/
theorem claim_C5_witness :
    isElementVisible stdViewport baseElem = true
  ∧ isElementVisible stdViewport noGeomElem = false := by
  constructor
  · exact (claim_C5_visibility stdViewport baseElem).1.mpr
      ⟨visibleRect, rfl, by decide, by decide, by decide, by decide,
        by decide, by decide, by decide, by decide⟩
  · exact (claim_C5_visibility stdViewport noGeomElem).2 rfl

/- ===== Claim C10 ===== -/

/-- Claim C10: a visible element whose tabindex attribute does not parse as
a number (parseInt gives NaN) triggers no keyboard finding: NaN < -1 is
false, and the attribute being present also rules the element out of the
interactive-without-tabindex warning. -/
theorem claim_C10_unparseable_tabindex (snap : Snapshot) (e : Elem) (v : String)
    (_hmem : e ∈ snap.elements)
    (hattr : getAttr e "tabindex" = some v)
    (hnan : jsParseInt v = none)
    (hvis : isElementVisible snap.viewport e = true) :
    tabindexIssue snap e = none
  ∧ interactiveIssue snap e = none
  ∧ checkKeyboardNavigation snap
      = snap.elements.filterMap (tabindexIssue snap)
        ++ snap.elements.filterMap (interactiveIssue snap) := by
  refine ⟨?_, ?_, rfl⟩
  · unfold tabindexIssue
    rw [hattr]
    simp [hvis, hnan, nanLtI]
  · unfold interactiveIssue
    have h1 : hasAttr e "tabindex" = true := by simp [hasAttr, hattr]
    simp [h1]

def badTabElem : Elem :=
  { baseElem with
    tag := "button"
    attrs := [("tabindex", "abc"), ("onclick", "go()")]
    outerHTML := "<button tabindex=\"abc\">x</button>" }

def snapBadTab : Snapshot :=
  { url := "http://example.test/", timestamp := "2024-01-01T00:00:00.000Z"
    htmlLang := some "en", htmlOuterHTML := "<html lang=\"en\">"
    elements := [badTabElem], viewport := stdViewport }

/-- Witness for C10: a visible button with tabindex="abc" yields no keyboard
finding. -/
theorem claim_C10_witness :
    tabindexIssue snapBadTab badTabElem = none
  ∧ interactiveIssue snapBadTab badTabElem = none := by
  have h := claim_C10_unparseable_tabindex snapBadTab badTabElem "abc"
    (by decide) (by decide) (by decide) (by decide)
  exact ⟨h.1, h.2.1⟩

/- ===== Claim C7 ===== -/

lemma filter_headings_nil {l : List Finding}
    (h : ∀ f ∈ l, f.category ≠ "headings") :
    l.filter (fun f => f.category == "headings") = [] :=
  List.filter_eq_nil_iff.mpr (fun f hf => by simp [h f hf])

lemma filterMap_filter_headings_nil (g : Elem → Option Finding)
    (hg : ∀ e f, g e = some f → f.category ≠ "headings") (l : List Elem) :
    (l.filterMap g).filter (fun f => f.category == "headings") = [] := by
  refine filter_headings_nil (fun f hf => ?_)
  obtain ⟨e, -, he⟩ := List.mem_filterMap.mp hf
  exact hg e f he

lemma Checker.imgIssue_cat {e : Elem} {f : Finding} (h : Checker.imgIssue e = some f) :
    f.category = "images" := by
  unfold Checker.imgIssue at h
  split at h
  · injection h with h; subst h; rfl
  · exact absurd h (by simp)

lemma Checker.ariaIssue_cat {e : Elem} {f : Finding} (h : Checker.ariaIssue e = some f) :
    f.category = "aria" := by
  unfold Checker.ariaIssue at h
  split at h
  · injection h with h; subst h; rfl
  · exact absurd h (by simp)

lemma Checker.keyboardIssue_cat {e : Elem} {f : Finding}
    (h : Checker.keyboardIssue e = some f) : f.category = "keyboard" := by
  unfold Checker.keyboardIssue at h
  split at h
  case h_1 v hv =>
    split at h
    · injection h with h; subst h; rfl
    · exact absurd h (by simp)
  case h_2 => exact absurd h (by simp)

lemma Checker.semanticIssue_cat {e : Elem} {f : Finding}
    (h : Checker.semanticIssue e = some f) : f.category = "semantics" := by
  unfold Checker.semanticIssue at h
  split at h
  · injection h with h; subst h; rfl
  · exact absurd h (by simp)

lemma runBasicChecks_filter_headings (snap : Snapshot) :
    (runBasicChecks snap).filter (fun f => f.category == "headings")
      = if (snap.elements.filter (fun e => e.tag == "h1")).length == 0
        then [noH1Finding] else [] := by
  unfold runBasicChecks
  simp only [List.filter_append]
  rw [filterMap_filter_headings_nil (imgIssue snap)
        (fun e f h => by rw [(imgIssue_spec h).2]; decide) snap.elements,
      filterMap_filter_headings_nil (formIssue snap)
        (fun e f h => by rw [(formIssue_spec h).2]; decide) snap.elements]
  have hlang : ((if langMissing snap then [langFinding snap] else []).filter
      (fun f => f.category == "headings")) = [] := by
    split <;> simp [langFinding]
  rw [hlang]
  split <;> simp [noH1Finding]

def h2Elem : Elem :=
  { baseElem with
    tag := "h2"
    outerHTML := "<h2>t</h2>"
    textContent := "t"
    innerText := "t"
    geom := none }

def snapH2 : Snapshot :=
  { url := "http://example.test/", timestamp := "2024-01-01T00:00:00.000Z"
    htmlLang := some "en", htmlOuterHTML := "<html lang=\"en\">"
    elements := [h2Elem], viewport := stdViewport }

/-- Counterexample to C7 as stated: a page whose only heading is an h2 (so it
does contain a heading among h1..h6) still receives a headings-category
warning from the inspector engine, whose runBasicChecks looks only for
h1. -/
theorem claim_C7_counterexample :
    ((runA11yChecks cuZero snapH2 false none).issues.filter
        (fun f => f.category == "headings")).length = 1
  ∧ (snapH2.elements.filter (fun e => Checker.isHeadingTag e.tag)).length ≠ 0 := by decide

lemma Checker.issues_eq (snap : Snapshot) :
    (Checker.runA11yChecks snap).issues
      = (snap.elements.filterMap Checker.imgIssue)
        ++ (if (snap.elements.filter (fun e => Checker.isHeadingTag e.tag)).length == 0
            then [Checker.headingsFinding] else [])
        ++ Checker.checkColorContrast snap
        ++ (snap.elements.filterMap Checker.ariaIssue)
        ++ (snap.elements.filterMap Checker.keyboardIssue)
        ++ (snap.elements.filterMap Checker.semanticIssue) := rfl

lemma inspector_issues_eq (cu : ColorUtilsModel) (snap : Snapshot) :
    (runA11yChecks cu snap false none).issues
      = runBasicChecks snap ++ (checkColorContrast cu snap ++ (checkAriaAttributes snap
        ++ (checkKeyboardNavigation snap ++ (checkSemanticMarkup snap
        ++ (checkLanguage snap ++ []))))) := rfl

/-- Claim C7 (amended): the two engines differ.  The accessibility-checker
content script emits exactly one page-level headings warning iff the page
has zero h1..h6 elements; the accessibility-inspector engine (runBasicChecks
fallback) emits exactly one page-level headings warning iff the page has
zero h1 elements, so a page with h2..h6 but no h1 does get a headings
finding there. -/
theorem claim_C7_headings_check (cu : ColorUtilsModel) (snap : Snapshot) :
    ((Checker.runA11yChecks snap).issues.filter (fun f => f.category == "headings")
        = if (snap.elements.filter (fun e => Checker.isHeadingTag e.tag)).length == 0
          then [Checker.headingsFinding] else [])
  ∧ ((runA11yChecks cu snap false none).issues.filter (fun f => f.category == "headings")
        = if (snap.elements.filter (fun e => e.tag == "h1")).length == 0
          then [noH1Finding] else [])
  ∧ Checker.headingsFinding.element = none
  ∧ Checker.headingsFinding.selector = none
  ∧ Checker.headingsFinding.severity = "warning"
  ∧ noH1Finding.element = none
  ∧ noH1Finding.selector = none
  ∧ noH1Finding.severity = "warning" := by
  refine ⟨?_, ?_, rfl, rfl, rfl, rfl, rfl, rfl⟩
  · rw [Checker.issues_eq]
    simp only [List.filter_append]
    rw [filterMap_filter_headings_nil Checker.imgIssue
          (fun e f h => by rw [Checker.imgIssue_cat h]; decide) snap.elements,
        filterMap_filter_headings_nil Checker.ariaIssue
          (fun e f h => by rw [Checker.ariaIssue_cat h]; decide) snap.elements,
        filterMap_filter_headings_nil Checker.keyboardIssue
          (fun e f h => by rw [Checker.keyboardIssue_cat h]; decide) snap.elements,
        filterMap_filter_headings_nil Checker.semanticIssue
          (fun e f h => by rw [Checker.semanticIssue_cat h]; decide) snap.elements]
    simp only [Checker.checkColorContrast, List.filter_nil]
    split <;> simp [Checker.headingsFinding]
  · rw [inspector_issues_eq]
    simp only [List.filter_append, checkAriaAttributes, checkKeyboardNavigation,
      checkSemanticMarkup, checkColorContrast]
    rw [runBasicChecks_filter_headings,
        filterMap_filter_headings_nil (contrastIssue cu)
          (fun e f h => by rw [(contrastIssue_spec h).2]; decide),
        filterMap_filter_headings_nil (ariaLabelIssue snap)
          (fun e f h => by rw [(ariaLabelIssue_spec h).2]; decide) snap.elements,
        filterMap_filter_headings_nil roleIssue
          (fun e f h => by rw [(roleIssue_spec h).2]; decide) snap.elements,
        filterMap_filter_headings_nil (tabindexIssue snap)
          (fun e f h => by rw [(tabindexIssue_spec h).2]; decide) snap.elements,
        filterMap_filter_headings_nil (interactiveIssue snap)
          (fun e f h => by rw [(interactiveIssue_spec h).2]; decide) snap.elements,
        filterMap_filter_headings_nil (divButtonIssue snap)
          (fun e f h => by rw [(divButtonIssue_spec h).2]; decide) snap.elements,
        filterMap_filter_headings_nil tableIssue
          (fun e f h => by rw [(tableIssue_spec h).2]; decide) snap.elements]
    have hlang : ((checkLanguage snap).filter (fun f => f.category == "headings")) = [] := by
      unfold checkLanguage
      split <;> simp [langFinding]
    rw [hlang]
    split <;> simp

/- ===== Claim C2 ===== -/

lemma largeGuard_iff (fs : Option Rat) (fw : Int) :
    (nanGeR fs 24 || (nanGeR fs (mkRat 1866 100) && decide ((700 : Int) ≤ fw))) = true
      ↔ ∃ v : Rat, fs = some v ∧ (24 ≤ v ∨ (mkRat 1866 100 ≤ v ∧ 700 ≤ fw)) := by
  cases fs with
  | none => simp [nanGeR]
  | some v => simp [nanGeR, Bool.or_eq_true, Bool.and_eq_true, decide_eq_true_eq]

lemma getRequiredContrastRatio_spec (fs : Option Rat) (fw : Int) :
    (getRequiredContrastRatio fs fw = 3 ↔
      ∃ v : Rat, fs = some v ∧ (24 ≤ v ∨ (mkRat 1866 100 ≤ v ∧ 700 ≤ fw)))
  ∧ (getRequiredContrastRatio fs fw = 3 ∨ getRequiredContrastRatio fs fw = mkRat 9 2) := by
  by_cases hg : (nanGeR fs 24 || (nanGeR fs (mkRat 1866 100) && decide ((700 : Int) ≤ fw))) = true
  · unfold getRequiredContrastRatio
    rw [if_pos hg]
    exact ⟨iff_of_true rfl ((largeGuard_iff fs fw).mp hg), Or.inl rfl⟩
  · unfold getRequiredContrastRatio
    rw [if_neg hg]
    exact ⟨iff_of_false (by decide) (fun hex => hg ((largeGuard_iff fs fw).mpr hex)), Or.inr rfl⟩

/- How the produced ContrastResult's derived fields are computed. -/
lemma contrastResult_fields {cu : ColorUtilsModel} {e : Elem} {cr : ContrastResult}
    (h : getContrastRatioForElement cu e = some cr) :
    cr.requiredAARatio = getRequiredContrastRatio cr.fontSize cr.fontWeight
  ∧ cr.requiredAAARatio = (if cr.requiredAARatio = 3 then mkRat 9 2 else 7)
  ∧ cr.meetsAA = decide (cr.requiredAARatio ≤ cr.ratio)
  ∧ cr.meetsAAA = decide (cr.requiredAAARatio ≤ cr.ratio) := by
  simp only [getContrastRatioForElement] at h
  split at h
  · exact absurd h (by simp)
  · injection h with h
    subst h
    exact ⟨rfl, rfl, rfl, rfl⟩

/-- Claim C2: whenever the contrast evaluator returns a result (foreground
and resolved background available), text is classified large exactly when
font size is at least 24, or at least 18.66 with font weight at least 700;
the required AA ratio is 3 for large and 4.5 for normal text; the required
AAA ratio is 4.5 when AA is 3 and 7 otherwise; and meetsAA / meetsAAA hold
exactly when the computed ratio reaches the respective requirement. -/
theorem claim_C2_contrast_thresholds (cu : ColorUtilsModel) (e : Elem) (cr : ContrastResult)
    (h : getContrastRatioForElement cu e = some cr) :
    (cr.requiredAARatio = 3 ↔
      ∃ v : Rat, cr.fontSize = some v ∧ (24 ≤ v ∨ (mkRat 1866 100 ≤ v ∧ 700 ≤ cr.fontWeight)))
  ∧ (cr.requiredAARatio = 3 ∨ cr.requiredAARatio = mkRat 9 2)
  ∧ (cr.requiredAARatio = 3 → cr.requiredAAARatio = mkRat 9 2)
  ∧ (cr.requiredAARatio = mkRat 9 2 → cr.requiredAAARatio = 7)
  ∧ (cr.meetsAA = true ↔ cr.requiredAARatio ≤ cr.ratio)
  ∧ (cr.meetsAAA = true ↔ cr.requiredAAARatio ≤ cr.ratio) := by
  obtain ⟨h1, h2, h3, h4⟩ := contrastResult_fields h
  refine ⟨?_, ?_, ?_, ?_, ?_, ?_⟩
  · rw [h1]
    exact (getRequiredContrastRatio_spec cr.fontSize cr.fontWeight).1
  · rw [h1]
    exact (getRequiredContrastRatio_spec cr.fontSize cr.fontWeight).2
  · intro h5
    rw [h2, if_pos h5]
  · intro h5
    rw [h2, h5, if_neg (by decide)]
  · rw [h3]
    exact ⟨of_decide_eq_true, fun hp => decide_eq_true hp⟩
  · rw [h4]
    exact ⟨of_decide_eq_true, fun hp => decide_eq_true hp⟩

def cu44 : ColorUtilsModel :=
  { calculateContrastRatio := fun _ _ => mkRat 22 5
    suggestContrastImprovements := fun _ _ _ => "" }

def elem25 : Elem :=
  { baseElem with style := { defaultStyle with fontSize := "25px" } }

/- The ContrastResult the evaluator produces for 16px/400 text at ratio 4.4. -/
def cr16val : ContrastResult :=
  { ratio := mkRat 22 5, fontSize := some 16, fontWeight := 400
    requiredAARatio := mkRat 9 2, requiredAAARatio := 7
    meetsAA := false, meetsAAA := false
    textColor := "rgb(0, 0, 0)", backgroundColor := "rgb(255, 255, 255)"
    suggestions := "" }

/-- Witness for C2: with computed ratio 4.4, 16px normal-weight text fails AA
(required 4.5) while the same colors at 25px pass AA (required 3). -/
theorem claim_C2_witness :
    (getContrastRatioForElement cu44 baseElem).map (fun cr => cr.meetsAA) = some false
  ∧ (getContrastRatioForElement cu44 elem25).map (fun cr => cr.meetsAA) = some true
  ∧ (getContrastRatioForElement cu44 baseElem).map (fun cr => cr.requiredAAARatio) = some 7 := by
  refine ⟨by decide, by decide, ?_⟩
  have hcr : getContrastRatioForElement cu44 baseElem = some cr16val := by decide
  have hthm := claim_C2_contrast_thresholds cu44 baseElem cr16val hcr
  have h7 : cr16val.requiredAAARatio = 7 := hthm.2.2.2.1 (by decide)
  rw [hcr]
  simp [h7]

end A11y

